import Mathlib

/-!
Shallow embedding of the `oauth2dev` package: the OAuth 2.0 Device
Authorization Grant client consisting of `RequestDeviceCode` and the
polling loop `WaitForDeviceAuthorization`.

Network interaction is modelled by a script of server replies: each
reply is either a transport-level failure or an HTTP response carrying
a status code and an already-parsed JSON body (`none` standing for a
body that fails to decode).  Decoding into the Go structs is modelled
by explicit functions (`decodeTokenOrError`, `decodeDeviceCode`) that
mirror `encoding/json` semantics, in particular the lazy allocation of
the embedded `*oauth2.Token` pointer: the pointer is allocated exactly
when the JSON object sets at least one field belonging to the embedded
struct, and stays nil otherwise.  Times are abstracted to an integer
clock `now`; a `time.Time` is `Option Int` with `none` for the Go zero
time (so `IsZero` is `Option.isNone`).
-/

namespace Oauth2dev

/-- The `oauth2.Token` struct: access token, token type, refresh token
and expiry instant (`none` models the Go zero `time.Time`). -/
structure OAuth2Token where
  accessToken : String
  tokenType : String
  refreshToken : String
  expiry : Option Int
  deriving Repr, DecidableEq

/-- The `tokenOrError` struct of the source: an embedded
`*oauth2.Token` pointer (`none` = nil) together with the `error`,
`error_description` and `expires_in` fields.  The outer `ExpiresIn`
field shadows any field of the embedded struct with the same JSON tag. -/
structure TokenOrError where
  token : Option OAuth2Token
  error : String
  errorDescription : String
  expiresIn : Int
  deriving Repr, DecidableEq

/-- The fields a token-endpoint JSON body may carry, each `none` when
absent from the JSON object. -/
structure TokenBody where
  accessToken : Option String := none
  tokenType : Option String := none
  refreshToken : Option String := none
  expiry : Option Int := none
  error : Option String := none
  errorDescription : Option String := none
  expiresIn : Option Int := none
  deriving Repr, DecidableEq

/-- Whether the JSON object sets at least one field that belongs to the
embedded `oauth2.Token` struct (`access_token`, `token_type`,
`refresh_token`, `expiry`); `expires_in` belongs to the outer struct. -/
def hasTokenField (b : TokenBody) : Bool :=
  b.accessToken.isSome || b.tokenType.isSome || b.refreshToken.isSome || b.expiry.isSome

/-- `json.Decode` into a `tokenOrError` value: absent string fields
decode to the empty string, absent integers to 0, and the embedded
`*oauth2.Token` is allocated exactly when some field of it is set. -/
def decodeTokenOrError (b : TokenBody) : TokenOrError :=
  { token :=
      if hasTokenField b then
        some { accessToken := b.accessToken.getD ""
               tokenType := b.tokenType.getD ""
               refreshToken := b.refreshToken.getD ""
               expiry := b.expiry }
      else none
    error := b.error.getD ""
    errorDescription := b.errorDescription.getD ""
    expiresIn := b.expiresIn.getD 0 }

/-- The `DeviceCode` struct of the source. -/
structure DeviceCode where
  deviceCode : String
  userCode : String
  verificationURL : String
  verificationURLComplete : String
  expiresIn : Int
  interval : Int
  deriving Repr, DecidableEq

/-- The fields a device-authorization JSON body may carry, each `none`
when absent from the JSON object. -/
structure DeviceCodeBody where
  deviceCode : Option String := none
  userCode : Option String := none
  verificationURL : Option String := none
  verificationURLComplete : Option String := none
  expiresIn : Option Int := none
  interval : Option Int := none
  deriving Repr, DecidableEq

/-- `json.Decode` into a `DeviceCode` value: absent strings decode to
the empty string, absent integers to 0. -/
def decodeDeviceCode (b : DeviceCodeBody) : DeviceCode :=
  { deviceCode := b.deviceCode.getD ""
    userCode := b.userCode.getD ""
    verificationURL := b.verificationURL.getD ""
    verificationURLComplete := b.verificationURLComplete.getD ""
    expiresIn := b.expiresIn.getD 0
    interval := b.interval.getD 0 }

/-- The `Config` struct: the embedded `oauth2.Config` fields used by
the source together with the device endpoint URL. -/
structure Config where
  clientID : String
  clientSecret : String
  scopes : List String
  codeURL : String
  tokenURL : String
  deriving Repr, DecidableEq

/-- The `deviceGrantType` constant of the source. -/
def deviceGrantType : String := "urn:ietf:params:oauth:grant-type:device_code"

/-- A subset of the `net/http.StatusText` table covering the statuses
that appear in this development; unknown codes give the empty string,
as in the Go function. -/
def statusText : Nat → String
  | 200 => "OK"
  | 201 => "Created"
  | 204 => "No Content"
  | 301 => "Moved Permanently"
  | 302 => "Found"
  | 400 => "Bad Request"
  | 401 => "Unauthorized"
  | 403 => "Forbidden"
  | 404 => "Not Found"
  | 405 => "Method Not Allowed"
  | 408 => "Request Timeout"
  | 409 => "Conflict"
  | 410 => "Gone"
  | 428 => "Precondition Required"
  | 429 => "Too Many Requests"
  | 500 => "Internal Server Error"
  | 502 => "Bad Gateway"
  | 503 => "Service Unavailable"
  | 504 => "Gateway Timeout"
  | _ => ""

/-- One reply of the token endpoint to a poll: either a transport-level
failure of `PostForm` or an HTTP response with a status code and a body
(`none` = body that fails to JSON-decode). -/
inductive PollReply where
  | transportError (msg : String)
  | reply (status : Nat) (body : Option TokenBody)
  deriving Repr, DecidableEq

/-- The classified errors `WaitForDeviceAuthorization` can return. -/
inductive PollError where
  | transport (msg : String)
  | httpStatus (status : Nat)
  | decodeError
  | accessDenied
  | authorizationFailed (errorCode : String)
  deriving Repr, DecidableEq

/-- The distinguished `ErrAccessDenied` error value of the source. -/
def ErrAccessDenied : PollError := PollError.accessDenied

/-- The message attached to each returned error, mirroring the
`fmt.Errorf` calls of the source. -/
def pollErrorMessage : PollError → String
  | .transport msg => msg
  | .httpStatus status =>
      "HTTP error " ++ toString status ++ " (" ++ statusText status
        ++ ") when polling for OAuth token"
  | .decodeError => "json decode error"
  | .accessDenied => "access denied by user"
  | .authorizationFailed errorCode => "authorization failed: " ++ errorCode

/-- The form values `WaitForDeviceAuthorization` posts on each poll. -/
def tokenPollRequest (config : Config) (code : DeviceCode) : List (String × String) :=
  [("client_secret", config.clientSecret),
   ("client_id", config.clientID),
   ("device_code", code.deviceCode),
   ("grant_type", deviceGrantType)]

/-- Outcome of processing one poll reply: continue the loop after a
sleep, return a token (possibly the nil pointer), return an error, or
panic on a nil dereference. -/
inductive StepResult where
  | next (newInterval : Int) (sleepSeconds : Int)
  | returnToken (t : Option OAuth2Token)
  | returnError (e : PollError)
  | nilDereference
  deriving Repr, DecidableEq

/-- The expiry fix-up of the source: when the token expiry is the zero
time and `expires_in` is non-zero, set expiry to now plus `expires_in`
seconds. -/
def fixExpiry (now : Int) (t : OAuth2Token) (expiresIn : Int) : OAuth2Token :=
  if t.expiry = none ∧ expiresIn ≠ 0 then { t with expiry := some (now + expiresIn) } else t

/-- The `switch token.Error` statement of the source.  The empty
discriminant returns `token.Token` (which may be nil); the pending and
slow-down cases fall through to the `time.Sleep(code.Interval)` at the
bottom of the loop, the latter after doubling the interval. -/
def switchOnError (interval : Int) (t : TokenOrError) : StepResult :=
  match t.error with
  | "" => .returnToken t.token
  | "authorization_pending" => .next interval interval
  | "slow_down" => .next (interval * 2) (interval * 2)
  | "access_denied" => .returnError .accessDenied
  | e => .returnError (.authorizationFailed e)

/-- One iteration of the polling loop of `WaitForDeviceAuthorization`,
given the current interval and the reply of the token endpoint.
Status 428 sleeps and continues without decoding; a status other than
200, 400 and 428 returns an HTTP error; otherwise the body is decoded
and, when the status is not 400, `token.Expiry.IsZero()` is read
through the embedded pointer — a nil pointer there is a panic,
modelled by `StepResult.nilDereference`. -/
def pollStep (now : Int) (interval : Int) (r : PollReply) : StepResult :=
  match r with
  | .transportError msg => .returnError (.transport msg)
  | .reply status body =>
      if status = 428 then
        .next interval interval
      else if status ≠ 200 ∧ status ≠ 400 then
        .returnError (.httpStatus status)
      else
        match body with
        | none => .returnError .decodeError
        | some b =>
            let t := decodeTokenOrError b
            if status ≠ 400 then
              match t.token with
              | none => .nilDereference
              | some tok =>
                  switchOnError interval
                    { t with token := some (fixExpiry now tok t.expiresIn) }
            else
              switchOnError interval t

/-- Terminal observation of a `WaitForDeviceAuthorization` run. -/
inductive WaitOutcome where
  | token (t : Option OAuth2Token)
  | failure (e : PollError)
  | nilPanic
  | scriptExhausted
  deriving Repr, DecidableEq

/-- Observable trace of a `WaitForDeviceAuthorization` run: how many
polls were issued, the sleeps (in seconds) performed between polls, the
final values of the `Config` and the `DeviceCode` (the latter is
mutated in place by the Go code) and the terminal outcome. -/
structure WaitTrace where
  polls : Nat
  sleeps : List Int
  finalConfig : Config
  finalCode : DeviceCode
  outcome : WaitOutcome
  deriving Repr, DecidableEq

/-- The polling loop of `WaitForDeviceAuthorization`, run against a
script of token-endpoint replies.  An exhausted script means the Go
loop would issue yet another poll. -/
def waitForDeviceAuthorization (now : Int) (config : Config) (code : DeviceCode) :
    List PollReply → WaitTrace
  | [] =>
      { polls := 0, sleeps := [], finalConfig := config, finalCode := code,
        outcome := .scriptExhausted }
  | r :: rs =>
      match pollStep now code.interval r with
      | .next newInterval sleepSeconds =>
          let t := waitForDeviceAuthorization now config
            { code with interval := newInterval } rs
          { t with polls := t.polls + 1, sleeps := sleepSeconds :: t.sleeps }
      | .returnToken tok =>
          { polls := 1, sleeps := [], finalConfig := config, finalCode := code,
            outcome := .token tok }
      | .returnError e =>
          { polls := 1, sleeps := [], finalConfig := config, finalCode := code,
            outcome := .failure e }
      | .nilDereference =>
          { polls := 1, sleeps := [], finalConfig := config, finalCode := code,
            outcome := .nilPanic }

/-- One reply of the device-authorization endpoint. -/
inductive CodeReply where
  | transportError (msg : String)
  | reply (status : Nat) (body : Option DeviceCodeBody)
  deriving Repr, DecidableEq

/-- The errors `RequestDeviceCode` can return. -/
inductive RequestError where
  | transport (msg : String)
  | badStatus (status : Nat)
  | decodeError
  deriving Repr, DecidableEq

/-- The message attached to a `RequestDeviceCode` error, mirroring the
`fmt.Errorf` call of the source. -/
def requestErrorMessage : RequestError → String
  | .transport msg => msg
  | .badStatus status =>
      "request for device code authorisation returned status "
        ++ toString status ++ " (" ++ statusText status ++ ")"
  | .decodeError => "json decode error"

/-- The form values `RequestDeviceCode` posts: `client_id` and the
space-joined scopes. -/
def deviceCodeRequest (config : Config) : List (String × String) :=
  [("client_id", config.clientID),
   ("scope", String.intercalate " " config.scopes)]

/-- `RequestDeviceCode`: a single POST to the device endpoint; strictly
status 200 is a success, whose body is decoded into a `DeviceCode`. -/
def requestDeviceCode (_config : Config) (r : CodeReply) : Except RequestError DeviceCode :=
  match r with
  | .transportError msg => .error (.transport msg)
  | .reply status body =>
      if status ≠ 200 then .error (.badStatus status)
      else
        match body with
        | none => .error .decodeError
        | some b => .ok (decodeDeviceCode b)

/-- A sample configuration used as concrete input in witnesses. -/
def sampleConfig : Config :=
  { clientID := "client-1", clientSecret := "", scopes := ["openid", "profile"],
    codeURL := "https://idp/device/code", tokenURL := "https://idp/token" }

/-- A sample device code used as concrete input in witnesses. -/
def sampleCode : DeviceCode :=
  { deviceCode := "D1", userCode := "ABCD-EFGH",
    verificationURL := "https://idp/device",
    verificationURLComplete := "https://idp/device?code=ABCD-EFGH",
    expiresIn := 600, interval := 5 }

/-- A token-endpoint body carrying only the pending discriminant. -/
def pendingBody : TokenBody := { error := some "authorization_pending" }

/-- A token-endpoint success body as in the spec scenario. -/
def successBody : TokenBody :=
  { accessToken := some "tok123", tokenType := some "Bearer", expiresIn := some 3600 }

/-- A status-400 body with a token field and `expires_in` but no expiry. -/
def successBody400 : TokenBody :=
  { accessToken := some "tok400", expiresIn := some 3600 }

/-- A token-endpoint body carrying only the `slow_down` discriminant. -/
def slowDownBody : TokenBody := { error := some "slow_down" }

/-- A token-endpoint body carrying only the `access_denied` discriminant. -/
def accessDeniedBody : TokenBody := { error := some "access_denied" }

/-- A token-endpoint body carrying only the `expired_token` discriminant. -/
def expiredTokenBody : TokenBody := { error := some "expired_token" }

/-- A pending body that also sets a token field, so that the embedded
token pointer is allocated even on the status-200 path. -/
def pendingTokenBody : TokenBody :=
  { accessToken := some "", error := some "authorization_pending" }

/-- A poll reply whose body decodes to error discriminant `e` and whose
processing does not dereference the nil embedded token pointer: either a
status-400 error reply, or a status-200 reply whose body also sets at
least one token field (so the pointer is allocated).  A status-200 reply
carrying only the error field is excluded: on it the code panics. -/
def errorReply (e : String) (r : PollReply) : Prop :=
  ∃ status b, r = PollReply.reply status (some b)
    ∧ (decodeTokenOrError b).error = e
    ∧ (status = 400 ∨ (status = 200 ∧ (decodeTokenOrError b).token ≠ none))

/-!  Helper lemmas about single loop iterations. -/

theorem switchOnError_empty (interval : Int) (t : TokenOrError) (h : t.error = "") :
    switchOnError interval t = .returnToken t.token := by
  unfold switchOnError; rw [h]; rfl

theorem switchOnError_pending (interval : Int) (t : TokenOrError)
    (h : t.error = "authorization_pending") :
    switchOnError interval t = .next interval interval := by
  unfold switchOnError; rw [h]; rfl

theorem switchOnError_slow (interval : Int) (t : TokenOrError)
    (h : t.error = "slow_down") :
    switchOnError interval t = .next (interval * 2) (interval * 2) := by
  unfold switchOnError; rw [h]; rfl

theorem switchOnError_denied (interval : Int) (t : TokenOrError)
    (h : t.error = "access_denied") :
    switchOnError interval t = .returnError .accessDenied := by
  unfold switchOnError; rw [h]; rfl

theorem switchOnError_other (interval : Int) (t : TokenOrError)
    (h1 : t.error ≠ "") (h2 : t.error ≠ "authorization_pending")
    (h3 : t.error ≠ "slow_down") (h4 : t.error ≠ "access_denied") :
    switchOnError interval t = .returnError (.authorizationFailed t.error) := by
  unfold switchOnError
  split <;> simp_all

theorem pollStep_400 (now interval : Int) (b : TokenBody) :
    pollStep now interval (PollReply.reply 400 (some b))
      = switchOnError interval (decodeTokenOrError b) := by
  simp [pollStep]

theorem pollStep_200_some (now interval : Int) (b : TokenBody) (tok : OAuth2Token)
    (htok : (decodeTokenOrError b).token = some tok) :
    pollStep now interval (PollReply.reply 200 (some b))
      = switchOnError interval
          { decodeTokenOrError b with
              token := some (fixExpiry now tok (decodeTokenOrError b).expiresIn) } := by
  simp [pollStep, htok]

theorem wait_cons_next (now : Int) (cfg : Config) (code : DeviceCode)
    (r : PollReply) (rs : List PollReply) (ni si : Int)
    (h : pollStep now code.interval r = .next ni si) :
    waitForDeviceAuthorization now cfg code (r :: rs)
      = { waitForDeviceAuthorization now cfg { code with interval := ni } rs with
            polls := (waitForDeviceAuthorization now cfg { code with interval := ni } rs).polls + 1,
            sleeps := si
              :: (waitForDeviceAuthorization now cfg { code with interval := ni } rs).sleeps } := by
  simp [waitForDeviceAuthorization, h]

theorem wait_cons_token (now : Int) (cfg : Config) (code : DeviceCode)
    (r : PollReply) (rs : List PollReply) (tok : Option OAuth2Token)
    (h : pollStep now code.interval r = .returnToken tok) :
    waitForDeviceAuthorization now cfg code (r :: rs)
      = { polls := 1, sleeps := [], finalConfig := cfg, finalCode := code,
          outcome := .token tok } := by
  simp [waitForDeviceAuthorization, h]

theorem wait_cons_error (now : Int) (cfg : Config) (code : DeviceCode)
    (r : PollReply) (rs : List PollReply) (e : PollError)
    (h : pollStep now code.interval r = .returnError e) :
    waitForDeviceAuthorization now cfg code (r :: rs)
      = { polls := 1, sleeps := [], finalConfig := cfg, finalCode := code,
          outcome := .failure e } := by
  simp [waitForDeviceAuthorization, h]

theorem pollStep_errorReply_eq (now interval : Int) (e : String) (r : PollReply)
    (h : errorReply e r) :
    ∃ t : TokenOrError, t.error = e ∧ pollStep now interval r = switchOnError interval t := by
  obtain ⟨status, b, rfl, herr, hcase⟩ := h
  rcases hcase with h400 | ⟨h200, htok⟩
  · subst h400
    exact ⟨decodeTokenOrError b, herr, pollStep_400 now interval b⟩
  · subst h200
    obtain ⟨tok, htok2⟩ := Option.ne_none_iff_exists'.mp htok
    exact ⟨_, by simpa using herr, pollStep_200_some now interval b tok htok2⟩

theorem pollStep_pending_reply (now interval : Int) (r : PollReply)
    (h : errorReply "authorization_pending" r) :
    pollStep now interval r = .next interval interval := by
  obtain ⟨t, ht, hstep⟩ := pollStep_errorReply_eq now interval _ r h
  rw [hstep, switchOnError_pending _ _ ht]

theorem pollStep_slow_reply (now interval : Int) (r : PollReply)
    (h : errorReply "slow_down" r) :
    pollStep now interval r = .next (interval * 2) (interval * 2) := by
  obtain ⟨t, ht, hstep⟩ := pollStep_errorReply_eq now interval _ r h
  rw [hstep, switchOnError_slow _ _ ht]

theorem pollStep_denied_reply (now interval : Int) (r : PollReply)
    (h : errorReply "access_denied" r) :
    pollStep now interval r = .returnError .accessDenied := by
  obtain ⟨t, ht, hstep⟩ := pollStep_errorReply_eq now interval _ r h
  rw [hstep, switchOnError_denied _ _ ht]

theorem pollStep_other_reply (now interval : Int) (e : String) (r : PollReply)
    (h : errorReply e r) (h1 : e ≠ "") (h2 : e ≠ "authorization_pending")
    (h3 : e ≠ "slow_down") (h4 : e ≠ "access_denied") :
    pollStep now interval r = .returnError (.authorizationFailed e) := by
  obtain ⟨t, ht, hstep⟩ := pollStep_errorReply_eq now interval _ r h
  rw [hstep, switchOnError_other _ _ (ht ▸ h1) (ht ▸ h2) (ht ▸ h3) (ht ▸ h4), ht]

/-- C1 counterexample: a poll reply with HTTP status 500 — not 200, not
400 and not 428 — makes `WaitForDeviceAuthorization` terminate at once
with an HTTP-status error, performing no sleep, instead of sleeping for
`interval` seconds and remaining in the polling loop as the claim
states. -/
theorem c1_counterexample :
    (waitForDeviceAuthorization 1000 sampleConfig sampleCode
        [PollReply.reply 500 none]).outcome
      = WaitOutcome.failure (PollError.httpStatus 500)
    ∧ (waitForDeviceAuthorization 1000 sampleConfig sampleCode
        [PollReply.reply 500 none]).sleeps = []
    ∧ (waitForDeviceAuthorization 1000 sampleConfig sampleCode
        [PollReply.reply 500 none]).polls = 1 :=
  ⟨rfl, rfl, rfl⟩

/-- C1 (amended): only HTTP status 428 makes the poller sleep for
`interval` seconds and remain in the polling loop without decoding the
response body; every other status that is not 200 and not 400 terminates
`WaitForDeviceAuthorization` at once with an error reporting the status,
after a single poll and with no sleep. -/
theorem c1_unexpected_status (now : Int) (cfg : Config) (code : DeviceCode)
    (body : Option TokenBody) (rest : List PollReply) (status : Nat)
    (h200 : status ≠ 200) (h400 : status ≠ 400) :
    (status = 428 →
      waitForDeviceAuthorization now cfg code (PollReply.reply status body :: rest)
        = { waitForDeviceAuthorization now cfg code rest with
              polls := (waitForDeviceAuthorization now cfg code rest).polls + 1,
              sleeps := code.interval
                :: (waitForDeviceAuthorization now cfg code rest).sleeps })
    ∧ (status ≠ 428 →
      waitForDeviceAuthorization now cfg code (PollReply.reply status body :: rest)
        = { polls := 1, sleeps := [], finalConfig := cfg, finalCode := code,
            outcome := .failure (.httpStatus status) }) := by
  constructor
  · intro h
    subst h
    have hstep : pollStep now code.interval (PollReply.reply 428 body)
        = .next code.interval code.interval := by
      simp [pollStep]
    exact wait_cons_next now cfg code _ rest _ _ hstep
  · intro h428
    have hstep : pollStep now code.interval (PollReply.reply status body)
        = .returnError (.httpStatus status) := by
      simp [pollStep, h428, h200, h400]
    exact wait_cons_error now cfg code _ rest _ hstep

/-- Witness for C1 (amended) at status 428 and status 503. -/
theorem c1_unexpected_status_witness :
    (waitForDeviceAuthorization 0 sampleConfig sampleCode
        [PollReply.reply 428 none]).sleeps = [5]
    ∧ (waitForDeviceAuthorization 0 sampleConfig sampleCode
        [PollReply.reply 503 none]).outcome
      = WaitOutcome.failure (PollError.httpStatus 503) := by
  constructor
  · rw [(c1_unexpected_status 0 sampleConfig sampleCode none [] 428
      (by decide) (by decide)).1 rfl]
    rfl
  · rw [(c1_unexpected_status 0 sampleConfig sampleCode none [] 503
      (by decide) (by decide)).2 (by decide)]

/-- C2 counterexample: one reply carrying the `authorization_pending`
error discriminant (on a status-200 body with only the error field)
followed by a success body should, by the claim, give 2 polls and the
decoded token; instead the run stops after a single poll with the nil
dereference and returns no token. -/
theorem c2_counterexample :
    waitForDeviceAuthorization 1000 sampleConfig sampleCode
        ([PollReply.reply 200 (some pendingBody)]
          ++ [PollReply.reply 200 (some successBody)])
      = { polls := 1, sleeps := [], finalConfig := sampleConfig,
          finalCode := sampleCode, outcome := WaitOutcome.nilPanic } :=
  rfl

/-- C2 (amended): if the token endpoint replies N times with the
`authorization_pending` error discriminant, each time carried so that
decoding does not dereference the nil embedded token pointer (a
status-400 error reply, or a status-200 reply whose body also sets a
token field), and then replies with a success body,
`WaitForDeviceAuthorization` performs exactly N+1 polls, sleeps
`interval` seconds between consecutive polls, and returns the token
decoded from the final reply (with the expiry fix-up of the code
applied); a status-200 reply carrying only the error field instead
panics on the nil pointer. -/
theorem c2_pending_then_success (now : Int) (cfg : Config) (code : DeviceCode)
    (ps : List PollReply) (sb : TokenBody) (tok : OAuth2Token)
    (hps : ∀ r ∈ ps, errorReply "authorization_pending" r)
    (hsb : (decodeTokenOrError sb).error = "")
    (htok : (decodeTokenOrError sb).token = some tok) :
    waitForDeviceAuthorization now cfg code (ps ++ [PollReply.reply 200 (some sb)])
      = { polls := ps.length + 1, sleeps := List.replicate ps.length code.interval,
          finalConfig := cfg, finalCode := code,
          outcome := .token (some (fixExpiry now tok (decodeTokenOrError sb).expiresIn)) } := by
  induction ps with
  | nil =>
      have hstep : pollStep now code.interval (PollReply.reply 200 (some sb))
          = .returnToken (some (fixExpiry now tok (decodeTokenOrError sb).expiresIn)) := by
        rw [pollStep_200_some now code.interval sb tok htok,
          switchOnError_empty _ _ (by simpa using hsb)]
      simpa using wait_cons_token now cfg code _ [] _ hstep
  | cons r rs ih =>
      have hstep := pollStep_pending_reply now code.interval r
        (hps r (List.mem_cons_self r rs))
      rw [List.cons_append, wait_cons_next now cfg code _ _ _ _ hstep]
      have ihh := ih (fun x hx => hps x (List.mem_cons_of_mem r hx))
      simp only [show ({ code with interval := code.interval } : DeviceCode) = code
        from rfl, ihh, List.length_cons, List.replicate_succ]

/-- Witness for C2 at N = 2, with one pending reply on each allowed
carrier (status 400, and status 200 with a token field set). -/
theorem c2_pending_then_success_witness :
    waitForDeviceAuthorization 1000 sampleConfig sampleCode
        ([PollReply.reply 400 (some pendingBody),
          PollReply.reply 200 (some pendingTokenBody)]
          ++ [PollReply.reply 200 (some successBody)])
      = { polls := 3, sleeps := [5, 5], finalConfig := sampleConfig,
          finalCode := sampleCode,
          outcome := .token (some { accessToken := "tok123", tokenType := "Bearer",
                                    refreshToken := "", expiry := some 4600 }) } := by
  have hps : ∀ r ∈ [PollReply.reply 400 (some pendingBody),
      PollReply.reply 200 (some pendingTokenBody)],
      errorReply "authorization_pending" r := by
    intro r hr
    simp only [List.mem_cons, List.not_mem_nil, or_false] at hr
    rcases hr with rfl | rfl
    · exact ⟨400, pendingBody, rfl, rfl, Or.inl rfl⟩
    · exact ⟨200, pendingTokenBody, rfl, rfl, Or.inr ⟨rfl, by decide⟩⟩
  rw [c2_pending_then_success 1000 sampleConfig sampleCode
    [PollReply.reply 400 (some pendingBody), PollReply.reply 200 (some pendingTokenBody)]
    successBody
    { accessToken := "tok123", tokenType := "Bearer", refreshToken := "", expiry := none }
    hps rfl rfl]
  rfl

/-- C3 (code bug): a status-200 reply whose body carries only the error
field, such as the spec scenario body with the pending discriminant and
no token fields, leaves the embedded token pointer nil after decoding,
and the read of `token.Expiry` on the non-400 path dereferences that nil
pointer — the run panics instead of treating the reply as pending. -/
theorem c3_nil_token_dereference :
    (decodeTokenOrError pendingBody).token = none
    ∧ (waitForDeviceAuthorization 1000 sampleConfig sampleCode
        [PollReply.reply 200 (some pendingBody)]).outcome = WaitOutcome.nilPanic :=
  ⟨rfl, rfl⟩

/-- C4 counterexample: a status-400 reply with an empty error
discriminant, a token field and `expires_in` = 3600 makes the poller
return a token whose expiry is still unset (`none`), not now + 3600:
the expiry fix-up is skipped whenever the HTTP status is 400. -/
theorem c4_counterexample :
    (waitForDeviceAuthorization 1000 sampleConfig sampleCode
        [PollReply.reply 400 (some successBody400)]).outcome
      = WaitOutcome.token (some { accessToken := "tok400", tokenType := "",
                                  refreshToken := "", expiry := none })
    ∧ (decodeTokenOrError successBody400).expiresIn = 3600
    ∧ (none : Option Int) ≠ some (1000 + 3600) :=
  ⟨rfl, rfl, by decide⟩

/-- C4 (amended): for every decoded poll reply whose error discriminant
is empty, `WaitForDeviceAuthorization` returns the decoded token; the
expiry computation (expiry := now + `expires_in` when the decoded expiry
is unset and `expires_in` is non-zero) is applied only when the HTTP
status is not 400 — a status-400 reply returns the decoded token
unchanged, and a status-200 reply whose decoded token is non-nil returns
the fixed-up token. -/
theorem c4_token_issued (now : Int) (cfg : Config) (code : DeviceCode)
    (b : TokenBody) (rest : List PollReply)
    (hb : (decodeTokenOrError b).error = "") :
    (waitForDeviceAuthorization now cfg code (PollReply.reply 400 (some b) :: rest)
        = { polls := 1, sleeps := [], finalConfig := cfg, finalCode := code,
            outcome := .token (decodeTokenOrError b).token })
    ∧ (∀ tok, (decodeTokenOrError b).token = some tok →
        waitForDeviceAuthorization now cfg code (PollReply.reply 200 (some b) :: rest)
          = { polls := 1, sleeps := [], finalConfig := cfg, finalCode := code,
              outcome := .token (some (fixExpiry now tok (decodeTokenOrError b).expiresIn)) }
        ∧ (tok.expiry = none → (decodeTokenOrError b).expiresIn ≠ 0 →
            (fixExpiry now tok (decodeTokenOrError b).expiresIn).expiry
              = some (now + (decodeTokenOrError b).expiresIn))) := by
  constructor
  · have hstep : pollStep now code.interval (PollReply.reply 400 (some b))
        = .returnToken (decodeTokenOrError b).token := by
      rw [pollStep_400, switchOnError_empty _ _ hb]
    exact wait_cons_token now cfg code _ rest _ hstep
  · intro tok htok
    constructor
    · have hstep : pollStep now code.interval (PollReply.reply 200 (some b))
          = .returnToken (some (fixExpiry now tok (decodeTokenOrError b).expiresIn)) := by
        rw [pollStep_200_some now code.interval b tok htok,
          switchOnError_empty _ _ (by simpa using hb)]
      exact wait_cons_token now cfg code _ rest _ hstep
    · intro hz hnz
      simp [fixExpiry, hz, hnz]

/-- Witness for C4 (amended) with the spec's success body (no expiry,
`expires_in` = 3600): the status-200 path computes expiry 1000 + 3600,
the status-400 path leaves it unset. -/
theorem c4_token_issued_witness :
    waitForDeviceAuthorization 1000 sampleConfig sampleCode
        [PollReply.reply 200 (some successBody)]
      = { polls := 1, sleeps := [], finalConfig := sampleConfig,
          finalCode := sampleCode,
          outcome := WaitOutcome.token (some { accessToken := "tok123",
                                               tokenType := "Bearer",
                                               refreshToken := "",
                                               expiry := some 4600 }) }
    ∧ waitForDeviceAuthorization 1000 sampleConfig sampleCode
        [PollReply.reply 400 (some successBody)]
      = { polls := 1, sleeps := [], finalConfig := sampleConfig,
          finalCode := sampleCode,
          outcome := WaitOutcome.token (some { accessToken := "tok123",
                                               tokenType := "Bearer",
                                               refreshToken := "",
                                               expiry := none }) } := by
  have h := c4_token_issued 1000 sampleConfig sampleCode successBody [] rfl
  have h200 := (h.2 ⟨"tok123", "Bearer", "", none⟩ rfl).1
  exact ⟨h200.trans rfl, h.1.trans rfl⟩

/-- C5 counterexample: a status-200 reply whose body carries only the
`slow_down` discriminant makes the run panic on the nil embedded token
pointer after a single poll: the Interval field is not doubled (the
final DeviceCode still has interval 5) and polling does not continue. -/
theorem c5_counterexample :
    waitForDeviceAuthorization 1000 sampleConfig sampleCode
        [PollReply.reply 200 (some slowDownBody)]
      = { polls := 1, sleeps := [], finalConfig := sampleConfig,
          finalCode := sampleCode, outcome := WaitOutcome.nilPanic }
    ∧ sampleCode.interval = 5 :=
  ⟨rfl, rfl⟩

/-- C5 (amended): a poll reply carrying the `slow_down` error
discriminant so that decoding does not dereference the nil embedded
token pointer (a status-400 error reply, or a status-200 reply whose
body also sets a token field) doubles the `Interval` field of the shared
DeviceCode in place, remains in the polling loop, and the sleep
preceding the next poll uses the doubled interval value; a status-200
reply carrying only the error field instead panics on the nil pointer. -/
theorem c5_slow_down (now : Int) (cfg : Config) (code : DeviceCode)
    (r : PollReply) (rest : List PollReply)
    (hr : errorReply "slow_down" r) :
    waitForDeviceAuthorization now cfg code (r :: rest)
      = { waitForDeviceAuthorization now cfg
            { code with interval := code.interval * 2 } rest with
          polls := (waitForDeviceAuthorization now cfg
            { code with interval := code.interval * 2 } rest).polls + 1,
          sleeps := code.interval * 2
            :: (waitForDeviceAuthorization now cfg
                { code with interval := code.interval * 2 } rest).sleeps } :=
  wait_cons_next now cfg code r rest _ _ (pollStep_slow_reply now code.interval r hr)

/-- Witness for C5: `slow_down` once (status-400 carrier) then success;
the single sleep is 10 = 2 × 5 seconds and the returned DeviceCode has
interval 10. -/
theorem c5_slow_down_witness :
    waitForDeviceAuthorization 1000 sampleConfig sampleCode
        [PollReply.reply 400 (some slowDownBody),
         PollReply.reply 200 (some successBody)]
      = { polls := 2, sleeps := [10], finalConfig := sampleConfig,
          finalCode := { sampleCode with interval := 10 },
          outcome := .token (some { accessToken := "tok123", tokenType := "Bearer",
                                    refreshToken := "", expiry := some 4600 }) } := by
  rw [c5_slow_down 1000 sampleConfig sampleCode (PollReply.reply 400 (some slowDownBody))
    [PollReply.reply 200 (some successBody)] ⟨400, slowDownBody, rfl, rfl, Or.inl rfl⟩]
  rfl

/-- C6 counterexample: a status-200 reply whose body carries only the
`access_denied` discriminant makes the run panic on the nil embedded
token pointer instead of returning the distinguished `ErrAccessDenied`
error. -/
theorem c6_counterexample :
    (waitForDeviceAuthorization 1000 sampleConfig sampleCode
        [PollReply.reply 200 (some accessDeniedBody)]).outcome = WaitOutcome.nilPanic
    ∧ WaitOutcome.nilPanic ≠ WaitOutcome.failure ErrAccessDenied :=
  ⟨rfl, by decide⟩

/-- C6 (amended): a poll reply carrying the `access_denied` error
discriminant so that decoding does not dereference the nil embedded
token pointer (a status-400 error reply, or a status-200 reply whose
body also sets a token field) makes `WaitForDeviceAuthorization` return
the distinguished `ErrAccessDenied` error on the first such reply — one
poll, no token, no further polls — regardless of any further scripted
replies; a status-200 reply carrying only the error field instead panics
on the nil pointer. -/
theorem c6_access_denied (now : Int) (cfg : Config) (code : DeviceCode)
    (r : PollReply) (rest : List PollReply)
    (hr : errorReply "access_denied" r) :
    waitForDeviceAuthorization now cfg code (r :: rest)
      = { polls := 1, sleeps := [], finalConfig := cfg, finalCode := code,
          outcome := .failure ErrAccessDenied } :=
  wait_cons_error now cfg code r rest _ (pollStep_denied_reply now code.interval r hr)

/-- Witness for C6: an `access_denied` reply (status-400 carrier)
followed by a scripted success is never polled past the denial. -/
theorem c6_access_denied_witness :
    waitForDeviceAuthorization 1000 sampleConfig sampleCode
        [PollReply.reply 400 (some accessDeniedBody),
         PollReply.reply 200 (some successBody)]
      = { polls := 1, sleeps := [], finalConfig := sampleConfig,
          finalCode := sampleCode, outcome := .failure ErrAccessDenied } := by
  rw [c6_access_denied 1000 sampleConfig sampleCode
    (PollReply.reply 400 (some accessDeniedBody))
    [PollReply.reply 200 (some successBody)]
    ⟨400, accessDeniedBody, rfl, rfl, Or.inl rfl⟩]

/-- C7 counterexample: a status-200 reply whose body carries only the
discriminant `expired_token` makes the run panic on the nil embedded
token pointer instead of terminating with the error that embeds the
discriminant string. -/
theorem c7_counterexample :
    (waitForDeviceAuthorization 1000 sampleConfig sampleCode
        [PollReply.reply 200 (some expiredTokenBody)]).outcome = WaitOutcome.nilPanic
    ∧ WaitOutcome.nilPanic
        ≠ WaitOutcome.failure (PollError.authorizationFailed "expired_token") :=
  ⟨rfl, by decide⟩

/-- C7 (amended): a poll reply carrying a non-empty error discriminant
other than `authorization_pending`, `slow_down` and `access_denied`, so
that decoding does not dereference the nil embedded token pointer (a
status-400 error reply, or a status-200 reply whose body also sets a
token field), terminates `WaitForDeviceAuthorization` at once — one
poll, no sleep, no retry — with an error whose message embeds the
discriminant string sent by the server; a status-200 reply carrying only
the error field instead panics on the nil pointer. -/
theorem c7_other_error (now : Int) (cfg : Config) (code : DeviceCode)
    (r : PollReply) (e : String) (rest : List PollReply)
    (hr : errorReply e r) (h1 : e ≠ "")
    (h2 : e ≠ "authorization_pending") (h3 : e ≠ "slow_down")
    (h4 : e ≠ "access_denied") :
    waitForDeviceAuthorization now cfg code (r :: rest)
      = { polls := 1, sleeps := [], finalConfig := cfg, finalCode := code,
          outcome := .failure (.authorizationFailed e) }
    ∧ pollErrorMessage (.authorizationFailed e) = "authorization failed: " ++ e :=
  ⟨wait_cons_error now cfg code r rest _
    (pollStep_other_reply now code.interval e r hr h1 h2 h3 h4), rfl⟩

/-- Witness for C7 with the RFC 8628 discriminant `expired_token` on the
status-400 carrier. -/
theorem c7_other_error_witness :
    waitForDeviceAuthorization 1000 sampleConfig sampleCode
        [PollReply.reply 400 (some expiredTokenBody),
         PollReply.reply 200 (some successBody)]
      = { polls := 1, sleeps := [], finalConfig := sampleConfig,
          finalCode := sampleCode,
          outcome := .failure (.authorizationFailed "expired_token") } := by
  rw [(c7_other_error 1000 sampleConfig sampleCode
    (PollReply.reply 400 (some expiredTokenBody))
    "expired_token" [PollReply.reply 200 (some successBody)]
    ⟨400, expiredTokenBody, rfl, rfl, Or.inl rfl⟩
    (by decide) (by decide) (by decide) (by decide)).1]

/-- C8: every device-authorization reply with an HTTP status other than
200 makes `RequestDeviceCode` return an error whose message reports the
status code and its reason phrase, and no DeviceCode; the function
issues a single request, so there is no retry. -/
theorem c8_request_bad_status (cfg : Config) (status : Nat)
    (body : Option DeviceCodeBody) (h : status ≠ 200) :
    requestDeviceCode cfg (CodeReply.reply status body)
      = .error (.badStatus status)
    ∧ requestErrorMessage (.badStatus status)
      = "request for device code authorisation returned status "
          ++ toString status ++ " (" ++ statusText status ++ ")" := by
  refine ⟨?_, rfl⟩
  simp [requestDeviceCode, h]

/-- Witness for C8 at status 404: the error reports 404 Not Found. -/
theorem c8_request_bad_status_witness :
    requestDeviceCode sampleConfig (CodeReply.reply 404 none)
      = .error (.badStatus 404)
    ∧ requestErrorMessage (.badStatus 404)
      = "request for device code authorisation returned status 404 (Not Found)" := by
  have h := c8_request_bad_status sampleConfig 404 none (by decide)
  exact ⟨h.1, h.2.trans rfl⟩

/-- C9: every device-authorization reply with HTTP status 200 and a
well-formed JSON body of the DeviceCode shape makes `RequestDeviceCode`
return a DeviceCode whose six fields exactly match the decoded JSON
values. -/
theorem c9_request_success (cfg : Config) (b : DeviceCodeBody)
    (dc uc vu vuc : String) (ei iv : Int)
    (h1 : b.deviceCode = some dc) (h2 : b.userCode = some uc)
    (h3 : b.verificationURL = some vu) (h4 : b.verificationURLComplete = some vuc)
    (h5 : b.expiresIn = some ei) (h6 : b.interval = some iv) :
    requestDeviceCode cfg (CodeReply.reply 200 (some b))
      = .ok { deviceCode := dc, userCode := uc, verificationURL := vu,
              verificationURLComplete := vuc, expiresIn := ei, interval := iv } := by
  simp [requestDeviceCode, decodeDeviceCode, h1, h2, h3, h4, h5, h6]

/-- Witness for C9 with the spec scenario body. -/
theorem c9_request_success_witness :
    requestDeviceCode sampleConfig (CodeReply.reply 200 (some
        { deviceCode := some "D1", userCode := some "ABCD-EFGH",
          verificationURL := some "https://idp/device",
          verificationURLComplete := some "https://idp/device?code=ABCD-EFGH",
          expiresIn := some 600, interval := some 5 }))
      = .ok { deviceCode := "D1", userCode := "ABCD-EFGH",
              verificationURL := "https://idp/device",
              verificationURLComplete := "https://idp/device?code=ABCD-EFGH",
              expiresIn := 600, interval := 5 } :=
  c9_request_success sampleConfig
    { deviceCode := some "D1", userCode := some "ABCD-EFGH",
      verificationURL := some "https://idp/device",
      verificationURLComplete := some "https://idp/device?code=ABCD-EFGH",
      expiresIn := some 600, interval := some 5 }
    "D1" "ABCD-EFGH" "https://idp/device" "https://idp/device?code=ABCD-EFGH"
    600 5 rfl rfl rfl rfl rfl rfl

/-- C10: over every script of token-endpoint replies and every outcome,
the only field of the passed DeviceCode that `WaitForDeviceAuthorization`
ever modifies is `Interval`: the `DeviceCode`, `UserCode`,
`VerificationURL`, `VerificationURLComplete` and `ExpiresIn` fields, and
the entire Config, are unchanged on return. -/
theorem c10_frame (now : Int) (cfg : Config) (code : DeviceCode)
    (script : List PollReply) :
    (waitForDeviceAuthorization now cfg code script).finalConfig = cfg
    ∧ (waitForDeviceAuthorization now cfg code script).finalCode.deviceCode
        = code.deviceCode
    ∧ (waitForDeviceAuthorization now cfg code script).finalCode.userCode
        = code.userCode
    ∧ (waitForDeviceAuthorization now cfg code script).finalCode.verificationURL
        = code.verificationURL
    ∧ (waitForDeviceAuthorization now cfg code script).finalCode.verificationURLComplete
        = code.verificationURLComplete
    ∧ (waitForDeviceAuthorization now cfg code script).finalCode.expiresIn
        = code.expiresIn := by
  induction script generalizing code with
  | nil => exact ⟨rfl, rfl, rfl, rfl, rfl, rfl⟩
  | cons r rs ih =>
      simp only [waitForDeviceAuthorization]
      cases hstep : pollStep now code.interval r with
      | next ni si => simpa using ih { code with interval := ni }
      | returnToken tok => exact ⟨rfl, rfl, rfl, rfl, rfl, rfl⟩
      | returnError e => exact ⟨rfl, rfl, rfl, rfl, rfl, rfl⟩
      | nilDereference => exact ⟨rfl, rfl, rfl, rfl, rfl, rfl⟩

end Oauth2dev
